import Mathlib

/-!
Shallow embedding of the sales-analysis pipeline in `Project_1.py`
(`run_sales_analysis`): load a CSV, coerce the amount column to numeric,
drop rows with unparsable amounts, aggregate by day / month / quarter /
product category, and emit five chart files plus console lines.

Dates are embedded as year/month/day triples; amounts as exact rationals
(the amount column after `pd.to_numeric` with coercion is an
`Option` — `none` stands for NaN).  The filesystem is a partial map from
file names to parsed row lists, and the observable outcome of a run
(exit code, console lines, files written, aggregate series) is a
`RunResult`.
-/

namespace SalesAnalysis

/-- A calendar date, as parsed by `pd.to_datetime` from the `Date` column. -/
structure Date where
  year : Nat
  month : Nat
  day : Nat
deriving DecidableEq

/-- A raw CSV row after the two coercions on lines 24-26 of the source:
the date is parsed and the amount is the result of
`pd.to_numeric` coercion, with `none` for NaN. -/
structure RawRow where
  date : Date
  category : String
  amount : Option ℚ
deriving DecidableEq

/-- A retained row (after `dropna(subset=["Total_Sales_INR"])`, line 29). -/
structure Row where
  date : Date
  category : String
  amount : ℚ
deriving DecidableEq

/-- `df.dropna(subset=["Total_Sales_INR"])`: keep exactly the rows whose
amount coerced to a number. -/
def cleanRows (rows : List RawRow) : List Row :=
  rows.filterMap (fun r => r.amount.map (fun a => ⟨r.date, r.category, a⟩))

/-- Serial day number of a date (days since 0000-03-01, civil calendar);
this is the key under which `resample("D")` buckets rows. -/
def toDayNumber (d : Date) : Nat :=
  let y := if d.month ≤ 2 then d.year - 1 else d.year
  let era := y / 400
  let yoe := y % 400
  let mp := (d.month + 9) % 12
  let doy := (153 * mp + 2) / 5 + d.day - 1
  let doe := yoe * 365 + yoe / 4 - yoe / 100 + doy
  era * 146097 + doe

/-- Serial month number (`resample("M")` bucket key). -/
def monthIndex (d : Date) : Nat :=
  d.year * 12 + (d.month - 1)

/-- Serial quarter number (`resample("Q")` bucket key). -/
def quarterIndex (d : Date) : Nat :=
  d.year * 4 + (d.month - 1) / 3

/-- Two-digit zero-padded decimal, as in `strftime("%m")`. -/
def pad2 (n : Nat) : String :=
  if n < 10 then "0" ++ toString n else toString n

/-- Four-digit zero-padded decimal, as in `strftime("%Y")`. -/
def pad4 (n : Nat) : String :=
  if n < 10 then "000" ++ toString n
  else if n < 100 then "00" ++ toString n
  else if n < 1000 then "0" ++ toString n
  else toString n

/-- Month-bucket label, `strftime("%Y-%m")` on line 72 of the source. -/
def monthLabel (mi : Nat) : String :=
  pad4 (mi / 12) ++ "-" ++ pad2 (mi % 12 + 1)

/-- Quarter-bucket label, `.to_period("Q").astype(str)` on line 88 of the
source; pandas renders a quarterly period as e.g. `2025Q1`. -/
def quarterLabel (qi : Nat) : String :=
  pad4 (qi / 4) ++ "Q" ++ toString (qi % 4 + 1)

/-- Sum of the `Total_Sales_INR` amounts of a list of retained rows. -/
def sumAmounts (rows : List Row) : ℚ :=
  (rows.map (fun r => r.amount)).sum

/-- `series.resample(freq).sum()`: one bucket for every key from the
smallest to the largest key realized by the rows, consecutive, each
holding the sum of the amounts of the rows that fall in it (`0` for a
bucket with no rows).  Empty input yields an empty series. -/
def resample (f : Row → Nat) (rows : List Row) : List (Nat × ℚ) :=
  match (rows.map f).min?, (rows.map f).max? with
  | some lo, some hi =>
      (List.range' lo (hi - lo + 1)).map
        (fun k => (k, sumAmounts (rows.filter (fun r => f r = k))))
  | _, _ => []

/-- Line 37: `daily_sales = df["Total_Sales_INR"].resample("D").sum()`. -/
def dailySales (raw : List RawRow) : List (Nat × ℚ) :=
  resample (fun r => toDayNumber r.date) (cleanRows raw)

/-- Lines 40 and 72: monthly resample, index formatted as `YYYY-MM`. -/
def monthlySales (raw : List RawRow) : List (String × ℚ) :=
  (resample (fun r => monthIndex r.date) (cleanRows raw)).map
    (fun p => (monthLabel p.1, p.2))

/-- Lines 43 and 88: quarterly resample, index formatted as `YYYYQn`. -/
def quarterlySales (raw : List RawRow) : List (String × ℚ) :=
  (resample (fun r => quarterIndex r.date) (cleanRows raw)).map
    (fun p => (quarterLabel p.1, p.2))

/-- Descending-by-total order used by `sort_values(ascending=False)`. -/
def byDesc (a b : String × ℚ) : Prop :=
  b.2 ≤ a.2

instance : DecidableRel byDesc :=
  fun a b => inferInstanceAs (Decidable (b.2 ≤ a.2))

instance : IsTotal (String × ℚ) byDesc :=
  ⟨fun a b => le_total b.2 a.2⟩

instance : IsTrans (String × ℚ) byDesc :=
  ⟨fun _ _ _ h₁ h₂ => le_trans h₂ h₁⟩

/-- The groupby sums before sorting: one pair per distinct category. -/
def categoryPairs (rows : List Row) : List (String × ℚ) :=
  ((rows.map (fun r => r.category)).dedup).map
    (fun c => (c, sumAmounts (rows.filter (fun r => r.category = c))))

/-- Line 104: `df.groupby("Product_Category")["Total_Sales_INR"].sum()
.sort_values(ascending=False)`. -/
def categorySales (raw : List RawRow) : List (String × ℚ) :=
  List.insertionSort byDesc (categoryPairs (cleanRows raw))

/-- Line 107: `category_share = (category_sales / category_sales.sum()) * 100`. -/
def categoryShare (raw : List RawRow) : List (String × ℚ) :=
  let cs := categorySales raw
  let total := (cs.map (fun p => p.2)).sum
  cs.map (fun p => (p.1, p.2 / total * 100))

/-- Grand total of `Total_Sales_INR` over the retained rows. -/
def grandTotal (raw : List RawRow) : ℚ :=
  sumAmounts (cleanRows raw)

/-- The x-axis order of the category bar chart (line 113). -/
def barCategories (raw : List RawRow) : List String :=
  (categorySales raw).map (fun p => p.1)

/-- One-decimal percentage rendering, the autopct format `%1.1f%%` (line 137). -/
def fmtPct (q : ℚ) : String :=
  let s := q * 10 + 1 / 2
  let t := s.num / (s.den : ℤ)
  toString (t / 10) ++ "." ++ toString (t % 10) ++ "%"

/-- The percentage texts shown on the pie wedges, in wedge order. -/
def pieLabels (raw : List RawRow) : List String :=
  (categoryShare raw).map (fun p => fmtPct p.2)

/-- The chart files written by a successful run, in the order of the
`savefig` calls (lines 65, 81, 97, 127, 145). -/
def chartFiles : List String :=
  ["daily_sales_line_chart.png",
   "monthly_sales_line_chart.png",
   "quarterly_sales_line_chart.png",
   "category_sales_bar_chart.png",
   "category_sales_pie_chart.png"]

/-- The file name hardcoded in `pd.read_csv` on line 18. -/
def hardcodedFile : String := "amazon_sales_2025_INR.csv"

/-- Observable outcome of one run: process exit code, console lines,
files written, and the aggregate series behind the charts. -/
structure RunResult where
  exitCode : Nat
  console : List String
  files : List String
  daily : List (Nat × ℚ)
  monthly : List (String × ℚ)
  quarterly : List (String × ℚ)
  catSales : List (String × ℚ)
  catShare : List (String × ℚ)
deriving DecidableEq

/-- The whole pipeline.  `fs` is the filesystem (file name to parsed
rows).  The source always opens `hardcodedFile`, never `file_path`;
on `FileNotFoundError` it prints a message naming `file_path` and calls
`sys.exit(1)` before any chart is produced. -/
def run_sales_analysis (file_path : String)
    (fs : String → Option (List RawRow)) : RunResult :=
  match fs hardcodedFile with
  | none =>
      ⟨1, ["Error: The file \x27" ++ file_path ++ "\x27 was not found."],
       [], [], [], [], [], []⟩
  | some raw =>
      ⟨0, chartFiles.map (fun f => "Chart saved: " ++ f), chartFiles,
       dailySales raw, monthlySales raw, quarterlySales raw,
       categorySales raw, categoryShare raw⟩
/-! Concrete fixtures used to exercise the pipeline -/

/-- Fixture of the spec: exactly one row dated 2025-01-15 with amount 1000. -/
def fixtureRaw : List RawRow :=
  [⟨⟨2025, 1, 15⟩, "Books", some 1000⟩]

/-- Fixture of the spec: category A sums to 600, category B to 400. -/
def fixtureC9 : List RawRow :=
  [⟨⟨2025, 1, 15⟩, "A", some 600⟩, ⟨⟨2025, 2, 10⟩, "B", some 400⟩]

/-- Two rows two days apart, leaving the gap day 2025-01-02 empty. -/
def gapRaw : List RawRow :=
  [⟨⟨2025, 1, 1⟩, "A", some 5⟩, ⟨⟨2025, 1, 3⟩, "A", some 7⟩]

/-- Two rows with an empty month (2025-02) between them. -/
def monthGapRaw : List RawRow :=
  [⟨⟨2025, 1, 10⟩, "A", some 5⟩, ⟨⟨2025, 3, 20⟩, "A", some 7⟩]

/-- Two rows with an empty quarter (2025 Q2) between them. -/
def quarterGapRaw : List RawRow :=
  [⟨⟨2025, 1, 10⟩, "A", some 5⟩, ⟨⟨2025, 7, 5⟩, "A", some 7⟩]

/-- One retained row whose amount is 0, so the grand total is 0. -/
def zeroRaw : List RawRow :=
  [⟨⟨2025, 1, 15⟩, "A", some 0⟩]

/-- A filesystem on which the hardcoded CSV exists. -/
def demoFs : String → Option (List RawRow) :=
  fun n => if n = hardcodedFile then some fixtureRaw else none

/-- A filesystem on which no file exists. -/
def noneFs : String → Option (List RawRow) :=
  fun _ => none


/-! Partition lemmas: a bucketed sum equals the grand total -/

theorem sum_map_ite {K : Type} [DecidableEq K] (keys : List K) (c : K) (a : ℚ) :
    (keys.map (fun k => if c = k then a else 0)).sum = (keys.count c : ℚ) * a := by
  induction keys with
  | nil => simp
  | cons k ks ih =>
      simp only [List.map_cons, List.sum_cons, ih, List.count_cons]
      by_cases h : c = k
      · subst h
        simp
        ring
      · have hk : ¬ (k == c) = true := by
          simp only [beq_iff_eq]
          exact fun e => h e.symm
        simp [h, hk]

theorem sum_filter_key {K : Type} [DecidableEq K] (f : Row → K) (keys : List K)
    (rows : List Row) (h : ∀ r ∈ rows, keys.count (f r) = 1) :
    (keys.map (fun k => sumAmounts (rows.filter (fun r => f r = k)))).sum
      = sumAmounts rows := by
  induction rows with
  | nil =>
      simp [sumAmounts]
  | cons r rs ih =>
      have h1 : keys.count (f r) = 1 := h r (List.mem_cons_self r rs)
      have h2 : ∀ x ∈ rs, keys.count (f x) = 1 :=
        fun x hx => h x (List.mem_cons_of_mem r hx)
      have step : ∀ k : K, sumAmounts ((r :: rs).filter (fun x => f x = k))
          = (if f r = k then r.amount else 0)
            + sumAmounts (rs.filter (fun x => f x = k)) := by
        intro k
        by_cases hk : f r = k <;> simp [List.filter_cons, hk, sumAmounts]
      calc (keys.map (fun k => sumAmounts ((r :: rs).filter (fun x => f x = k)))).sum
          = (keys.map (fun k => (if f r = k then r.amount else 0)
              + sumAmounts (rs.filter (fun x => f x = k)))).sum := by
            simp only [step]
        _ = (keys.map (fun k => if f r = k then r.amount else 0)).sum
            + (keys.map (fun k => sumAmounts (rs.filter (fun x => f x = k)))).sum := by
            rw [List.sum_map_add]
        _ = r.amount + sumAmounts rs := by
            rw [sum_map_ite, h1, ih h2]
            push_cast
            ring
        _ = sumAmounts (r :: rs) := by simp [sumAmounts]

theorem resample_sum (f : Row → Nat) (rows : List Row) :
    ((resample f rows).map (fun p => p.2)).sum = sumAmounts rows := by
  unfold resample
  cases rows with
  | nil => simp [sumAmounts, List.min?]
  | cons r rs =>
      have hmem : f r ∈ (r :: rs).map f :=
        List.mem_map_of_mem f (List.mem_cons_self r rs)
      obtain ⟨lo, hlo⟩ := Option.isSome_iff_exists.1 (List.isSome_min?_of_mem hmem)
      obtain ⟨hi, hhi⟩ := Option.isSome_iff_exists.1 (List.isSome_max?_of_mem hmem)
      rw [hlo, hhi]
      simp only [List.map_map]
      have hcount : ∀ x ∈ r :: rs,
          (List.range' lo (hi - lo + 1)).count (f x) = 1 := by
        intro x hx
        have hxmem : f x ∈ (r :: rs).map f := List.mem_map_of_mem f hx
        have hlo' : lo ≤ f x := (List.min?_eq_some_iff'.mp hlo).2 _ hxmem
        have hhi' : f x ≤ hi := (List.max?_eq_some_iff'.mp hhi).2 _ hxmem
        exact List.count_eq_one_of_mem (List.nodup_range' _ _)
          (List.mem_range'_1.2 ⟨hlo', by omega⟩)
      simpa [Function.comp] using
        sum_filter_key f (List.range' lo (hi - lo + 1)) (r :: rs) hcount

theorem categoryPairs_sum (rows : List Row) :
    ((categoryPairs rows).map (fun p => p.2)).sum = sumAmounts rows := by
  unfold categoryPairs
  have hcount : ∀ r ∈ rows,
      ((rows.map (fun r => r.category)).dedup).count r.category = 1 := by
    intro r hr
    exact List.count_eq_one_of_mem (List.nodup_dedup _)
      (List.mem_dedup.2 (List.mem_map_of_mem _ hr))
  simpa [Function.comp, List.map_map] using
    sum_filter_key (fun r => r.category)
      ((rows.map (fun r => r.category)).dedup) rows hcount

theorem categorySales_sum (raw : List RawRow) :
    ((categorySales raw).map (fun p => p.2)).sum = grandTotal raw := by
  unfold categorySales grandTotal
  rw [List.Perm.sum_eq (List.Perm.map _ (List.perm_insertionSort byDesc _))]
  exact categoryPairs_sum _

theorem rawSum_eq (raw : List RawRow) (h : ∀ r ∈ raw, r.amount.isSome) :
    (raw.map (fun r => r.amount.getD 0)).sum = sumAmounts (cleanRows raw) := by
  induction raw with
  | nil => simp [cleanRows, sumAmounts]
  | cons r rs ih =>
      obtain ⟨a, ha⟩ :=
        Option.isSome_iff_exists.1 (h r (List.mem_cons_self r rs))
      have h2 : ∀ x ∈ rs, x.amount.isSome :=
        fun x hx => h x (List.mem_cons_of_mem r hx)
      have hih := ih h2
      simp only [cleanRows, List.filterMap_cons, ha, Option.map_some] at hih ⊢
      simp [sumAmounts, List.map_cons, List.sum_cons] at hih ⊢
      rw [hih]
      simp [ha]

/-! Bucket structure of `resample`: zero-filled consecutive keys -/

theorem resample_mem (f : Row → Nat) (rows : List Row) (n : Nat)
    (h₁ : ∃ r ∈ rows, f r ≤ n) (h₂ : ∃ r ∈ rows, n ≤ f r) :
    ((resample f rows).map Prod.fst).count n = 1
    ∧ (n, sumAmounts (rows.filter (fun r => f r = n))) ∈ resample f rows := by
  obtain ⟨r₁, hr₁, hle₁⟩ := h₁
  obtain ⟨r₂, hr₂, hle₂⟩ := h₂
  unfold resample
  cases rows with
  | nil => simp at hr₁
  | cons r rs =>
      have hmem : f r ∈ (r :: rs).map f :=
        List.mem_map_of_mem f (List.mem_cons_self r rs)
      obtain ⟨lo, hlo⟩ := Option.isSome_iff_exists.1 (List.isSome_min?_of_mem hmem)
      obtain ⟨hi, hhi⟩ := Option.isSome_iff_exists.1 (List.isSome_max?_of_mem hmem)
      rw [hlo, hhi]
      have hlo₁ : lo ≤ f r₁ :=
        (List.min?_eq_some_iff'.mp hlo).2 _ (List.mem_map_of_mem f hr₁)
      have hhi₂ : f r₂ ≤ hi :=
        (List.max?_eq_some_iff'.mp hhi).2 _ (List.mem_map_of_mem f hr₂)
      have hn : n ∈ List.range' lo (hi - lo + 1) :=
        List.mem_range'_1.2 ⟨le_trans hlo₁ hle₁, by omega⟩
      constructor
      · rw [List.map_map]
        have : (Prod.fst ∘ fun k => ((k : Nat),
            sumAmounts ((r :: rs).filter (fun x => f x = k)))) = fun k => k := rfl
        rw [this, List.map_id']
        exact List.count_eq_one_of_mem (List.nodup_range' _ _) hn
      · exact List.mem_map.2 ⟨n, hn, rfl⟩

theorem resample_bounded (f : Row → Nat) (rows : List Row) :
    ∀ p ∈ resample f rows,
      (∃ r ∈ rows, f r ≤ p.1) ∧ (∃ r ∈ rows, p.1 ≤ f r) := by
  intro p hp
  unfold resample at hp
  cases rows with
  | nil => simp [List.min?] at hp
  | cons r rs =>
      have hmem : f r ∈ (r :: rs).map f :=
        List.mem_map_of_mem f (List.mem_cons_self r rs)
      obtain ⟨lo, hlo⟩ := Option.isSome_iff_exists.1 (List.isSome_min?_of_mem hmem)
      obtain ⟨hi, hhi⟩ := Option.isSome_iff_exists.1 (List.isSome_max?_of_mem hmem)
      rw [hlo, hhi] at hp
      obtain ⟨k, hk, rfl⟩ := List.mem_map.1 hp
      obtain ⟨hk₁, hk₂⟩ := List.mem_range'_1.1 hk
      obtain ⟨a, ha⟩ := List.mem_map.1 (List.min?_mem (fun x y => min_choice x y) hlo)
      obtain ⟨b, hb⟩ := List.mem_map.1 (List.max?_mem (fun x y => max_choice x y) hhi)
      have hab : f a ≤ f b := by
        rw [ha.2, hb.2]
        exact le_trans ((List.min?_eq_some_iff'.mp hlo).2 _
          (List.mem_map_of_mem f hb.1)) (le_of_eq hb.2)
      refine ⟨⟨a, ha.1, ?_⟩, ⟨b, hb.1, ?_⟩⟩
      · rw [ha.2]
        exact hk₁
      · rw [hb.2]
        omega

/-! Claims -/

/-- C1 (amended): on every successful run (the hardcoded CSV exists), the
pipeline writes exactly the five chart files of the `savefig` calls — not
six as the spec states. -/
theorem salesC1 (p : String) (fs : String → Option (List RawRow))
    (rows : List RawRow) (h : fs hardcodedFile = some rows) :
    (run_sales_analysis p fs).files = chartFiles
    ∧ (run_sales_analysis p fs).files.length = 5 := by
  unfold run_sales_analysis
  rw [h]
  exact ⟨rfl, rfl⟩

/-- C1 counterexample: on a filesystem where the hardcoded CSV exists, the
run does not write six chart files (it writes five). -/
theorem salesC1_cex :
    ¬ (run_sales_analysis "amazon_sales_2025_INR.csv" demoFs).files.length = 6 := by
  have h : demoFs hardcodedFile = some fixtureRaw := by
    simp [demoFs]
  unfold run_sales_analysis
  rw [h]
  decide

/-- C1 witness: the amended claim instantiated on a concrete filesystem. -/
theorem salesC1_witness :
    (run_sales_analysis "sales.csv" demoFs).files = chartFiles
    ∧ (run_sales_analysis "sales.csv" demoFs).files.length = 5 :=
  salesC1 "sales.csv" demoFs fixtureRaw (by simp [demoFs])

/-- C2 (amended): `run_sales_analysis` ignores `file_path` when opening the
data: it always reads `hardcodedFile`, and the whole observable outcome
depends only on the content of that file.  When the hardcoded file exists
the behavior is identical across any two `file_path` values; when it is
missing, both runs exit with status 1 and write no files, but the printed
error message embeds the differing `file_path`. -/
theorem salesC2 :
    (∀ (fs : String → Option (List RawRow)) (p₁ p₂ : String)
        (rows : List RawRow), fs hardcodedFile = some rows →
        run_sales_analysis p₁ fs = run_sales_analysis p₂ fs)
    ∧ (∀ (p : String) (fs fs' : String → Option (List RawRow)),
        fs hardcodedFile = fs' hardcodedFile →
        run_sales_analysis p fs = run_sales_analysis p fs')
    ∧ (∀ (fs : String → Option (List RawRow)) (p₁ p₂ : String),
        fs hardcodedFile = none →
        (run_sales_analysis p₁ fs).exitCode = 1
        ∧ (run_sales_analysis p₁ fs).files = (run_sales_analysis p₂ fs).files) := by
  refine ⟨?_, ?_, ?_⟩
  · intro fs p₁ p₂ rows h
    unfold run_sales_analysis
    rw [h]
  · intro p fs fs' h
    unfold run_sales_analysis
    rw [h]
  · intro fs p₁ p₂ h
    unfold run_sales_analysis
    rw [h]
    exact ⟨rfl, rfl⟩

/-- C2 counterexample: when the hardcoded file is missing, two runs with
different `file_path` values are observably different (the printed error
message embeds `file_path`), refuting the claim that the observable
behavior is identical for every pair of `file_path` values. -/
theorem salesC2_cex :
    ¬ run_sales_analysis "a" noneFs = run_sales_analysis "b" noneFs := by
  intro h
  have hc := congrArg RunResult.console h
  simp [run_sales_analysis, noneFs] at hc

/-- C2 witness: identical outcomes on a filesystem where the hardcoded
file exists. -/
theorem salesC2_witness :
    run_sales_analysis "a" demoFs = run_sales_analysis "b" demoFs :=
  salesC2.1 demoFs "a" "b" fixtureRaw (by simp [demoFs])

/-- C3: if the input file does not exist, the run prints an error message,
exits with status 1, and creates no chart files (all aggregate output is
empty as well). -/
theorem salesC3 (p : String) (fs : String → Option (List RawRow))
    (h : fs hardcodedFile = none) :
    run_sales_analysis p fs =
      ⟨1, ["Error: The file \x27" ++ p ++ "\x27 was not found."],
       [], [], [], [], [], []⟩ := by
  unfold run_sales_analysis
  rw [h]

/-- C3 witness: the missing-file behavior at a concrete path. -/
theorem salesC3_witness :
    run_sales_analysis "data.csv" noneFs =
      ⟨1, ["Error: The file \x27data.csv\x27 was not found."],
       [], [], [], [], [], []⟩ := by
  rw [salesC3 "data.csv" noneFs rfl]
  rfl

/-- C4: for a dataset where every amount is numeric, the sums of the
daily, monthly, quarterly and category aggregates all equal the grand
total of `Total_Sales_INR` over the dataset. -/
theorem salesC4 (raw : List RawRow) (h : ∀ r ∈ raw, r.amount.isSome) :
    ((dailySales raw).map (fun p => p.2)).sum
        = (raw.map (fun r => r.amount.getD 0)).sum
    ∧ ((monthlySales raw).map (fun p => p.2)).sum
        = (raw.map (fun r => r.amount.getD 0)).sum
    ∧ ((quarterlySales raw).map (fun p => p.2)).sum
        = (raw.map (fun r => r.amount.getD 0)).sum
    ∧ ((categorySales raw).map (fun p => p.2)).sum
        = (raw.map (fun r => r.amount.getD 0)).sum := by
  have hraw := rawSum_eq raw h
  refine ⟨?_, ?_, ?_, ?_⟩
  · rw [hraw]
    exact resample_sum _ _
  · rw [hraw]
    unfold monthlySales
    rw [List.map_map]
    exact resample_sum _ _
  · rw [hraw]
    unfold quarterlySales
    rw [List.map_map]
    exact resample_sum _ _
  · rw [hraw, categorySales_sum]
    rfl

/-- C4 witness: the four aggregate sums at a concrete all-numeric dataset. -/
theorem salesC4_witness :
    (∀ r ∈ fixtureC9, r.amount.isSome)
    ∧ (((dailySales fixtureC9).map (fun p => p.2)).sum
        = (fixtureC9.map (fun r => r.amount.getD 0)).sum
      ∧ ((monthlySales fixtureC9).map (fun p => p.2)).sum
        = (fixtureC9.map (fun r => r.amount.getD 0)).sum
      ∧ ((quarterlySales fixtureC9).map (fun p => p.2)).sum
        = (fixtureC9.map (fun r => r.amount.getD 0)).sum
      ∧ ((categorySales fixtureC9).map (fun p => p.2)).sum
        = (fixtureC9.map (fun r => r.amount.getD 0)).sum) :=
  ⟨by decide, salesC4 fixtureC9 (by decide)⟩

/-- C5: a row whose amount is not parsable as a number (coerced to NaN)
is dropped before aggregation and leaves every aggregate and the grand
total unchanged, wherever it sits in the input. -/
theorem salesC5 (l₁ l₂ : List RawRow) (r : RawRow) (h : r.amount = none) :
    cleanRows (l₁ ++ r :: l₂) = cleanRows (l₁ ++ l₂)
    ∧ dailySales (l₁ ++ r :: l₂) = dailySales (l₁ ++ l₂)
    ∧ monthlySales (l₁ ++ r :: l₂) = monthlySales (l₁ ++ l₂)
    ∧ quarterlySales (l₁ ++ r :: l₂) = quarterlySales (l₁ ++ l₂)
    ∧ categorySales (l₁ ++ r :: l₂) = categorySales (l₁ ++ l₂)
    ∧ categoryShare (l₁ ++ r :: l₂) = categoryShare (l₁ ++ l₂)
    ∧ grandTotal (l₁ ++ r :: l₂) = grandTotal (l₁ ++ l₂) := by
  have key : cleanRows (l₁ ++ r :: l₂) = cleanRows (l₁ ++ l₂) := by
    simp [cleanRows, List.filterMap_append, List.filterMap_cons, h]
  refine ⟨key, ?_, ?_, ?_, ?_, ?_, ?_⟩
  · unfold dailySales
    rw [key]
  · unfold monthlySales
    rw [key]
  · unfold quarterlySales
    rw [key]
  · unfold categorySales
    rw [key]
  · unfold categoryShare categorySales
    rw [key]
  · unfold grandTotal
    rw [key]

/-- C5 witness: inserting a NaN-amount row between two numeric rows. -/
theorem salesC5_witness :
    (⟨⟨2025, 2, 2⟩, "Junk", none⟩ : RawRow).amount = none
    ∧ (cleanRows ([⟨⟨2025, 1, 15⟩, "A", some 600⟩]
          ++ ⟨⟨2025, 2, 2⟩, "Junk", none⟩ :: [⟨⟨2025, 2, 10⟩, "B", some 400⟩])
        = cleanRows ([⟨⟨2025, 1, 15⟩, "A", some 600⟩]
          ++ [⟨⟨2025, 2, 10⟩, "B", some 400⟩])
      ∧ dailySales ([⟨⟨2025, 1, 15⟩, "A", some 600⟩]
          ++ ⟨⟨2025, 2, 2⟩, "Junk", none⟩ :: [⟨⟨2025, 2, 10⟩, "B", some 400⟩])
        = dailySales ([⟨⟨2025, 1, 15⟩, "A", some 600⟩]
          ++ [⟨⟨2025, 2, 10⟩, "B", some 400⟩])
      ∧ monthlySales ([⟨⟨2025, 1, 15⟩, "A", some 600⟩]
          ++ ⟨⟨2025, 2, 2⟩, "Junk", none⟩ :: [⟨⟨2025, 2, 10⟩, "B", some 400⟩])
        = monthlySales ([⟨⟨2025, 1, 15⟩, "A", some 600⟩]
          ++ [⟨⟨2025, 2, 10⟩, "B", some 400⟩])
      ∧ quarterlySales ([⟨⟨2025, 1, 15⟩, "A", some 600⟩]
          ++ ⟨⟨2025, 2, 2⟩, "Junk", none⟩ :: [⟨⟨2025, 2, 10⟩, "B", some 400⟩])
        = quarterlySales ([⟨⟨2025, 1, 15⟩, "A", some 600⟩]
          ++ [⟨⟨2025, 2, 10⟩, "B", some 400⟩])
      ∧ categorySales ([⟨⟨2025, 1, 15⟩, "A", some 600⟩]
          ++ ⟨⟨2025, 2, 2⟩, "Junk", none⟩ :: [⟨⟨2025, 2, 10⟩, "B", some 400⟩])
        = categorySales ([⟨⟨2025, 1, 15⟩, "A", some 600⟩]
          ++ [⟨⟨2025, 2, 10⟩, "B", some 400⟩])
      ∧ categoryShare ([⟨⟨2025, 1, 15⟩, "A", some 600⟩]
          ++ ⟨⟨2025, 2, 2⟩, "Junk", none⟩ :: [⟨⟨2025, 2, 10⟩, "B", some 400⟩])
        = categoryShare ([⟨⟨2025, 1, 15⟩, "A", some 600⟩]
          ++ [⟨⟨2025, 2, 10⟩, "B", some 400⟩])
      ∧ grandTotal ([⟨⟨2025, 1, 15⟩, "A", some 600⟩]
          ++ ⟨⟨2025, 2, 2⟩, "Junk", none⟩ :: [⟨⟨2025, 2, 10⟩, "B", some 400⟩])
        = grandTotal ([⟨⟨2025, 1, 15⟩, "A", some 600⟩]
          ++ [⟨⟨2025, 2, 10⟩, "B", some 400⟩])) :=
  ⟨rfl, salesC5 [⟨⟨2025, 1, 15⟩, "A", some 600⟩]
    [⟨⟨2025, 2, 10⟩, "B", some 400⟩] ⟨⟨2025, 2, 2⟩, "Junk", none⟩ rfl⟩

/-- C6 (amended): for every dataset whose grand total of retained amounts
is nonzero, the per-category percentage shares sum to exactly 100 under
exact arithmetic.  (With a zero grand total the division degenerates and
the shares do not sum to 100.) -/
theorem salesC6 (raw : List RawRow) (h : grandTotal raw ≠ 0) :
    ((categoryShare raw).map (fun p => p.2)).sum = 100 := by
  unfold categoryShare
  have ht := categorySales_sum raw
  rw [List.map_map]
  have hfun : ((fun p : String × ℚ => p.2) ∘ fun p : String × ℚ =>
        (p.1, p.2 / ((categorySales raw).map (fun p => p.2)).sum * 100))
      = fun p : String × ℚ =>
        p.2 * (100 / ((categorySales raw).map (fun p => p.2)).sum) := by
    funext p
    simp [Function.comp]
    ring
  rw [hfun, List.sum_map_mul_right, ht, mul_comm, div_mul_cancel₀ _ h]

/-- C6 counterexample: a dataset with one retained row of amount 0 has a
nonempty retained set, yet its category shares do not sum to 100. -/
theorem salesC6_cex :
    cleanRows zeroRaw ≠ []
    ∧ ¬ ((categoryShare zeroRaw).map (fun p => p.2)).sum = 100 := by
  constructor
  · decide
  · have he : ((categoryShare zeroRaw).map (fun p => p.2)).sum = 0 := by
      simp [categoryShare, categorySales, categoryPairs, cleanRows, zeroRaw,
        sumAmounts, List.insertionSort, List.orderedInsert, byDesc]
    rw [he]
    norm_num

/-- C6 witness: the amended claim at a dataset with nonzero grand total. -/
theorem salesC6_witness :
    grandTotal fixtureC9 ≠ 0
    ∧ ((categoryShare fixtureC9).map (fun p => p.2)).sum = 100 := by
  have h : grandTotal fixtureC9 ≠ 0 := by
    have : grandTotal fixtureC9 = 1000 := by
      simp [grandTotal, cleanRows, fixtureC9, sumAmounts]
      norm_num
    rw [this]
    norm_num
  exact ⟨h, salesC6 fixtureC9 h⟩

/-- C7 (amended): quarterly bucket labels have the pandas period form
`YYYYQn` with no space (year immediately followed by `Q` and the quarter
number 1..4); for the one-row fixture dated 2025-01-15 with amount 1000
the quarterly aggregate is exactly one bucket labeled `2025Q1` with
value 1000. -/
theorem salesC7 :
    (∀ (raw : List RawRow), ∀ p ∈ quarterlySales raw,
      ∃ y n, 1 ≤ n ∧ n ≤ 4 ∧ p.1 = pad4 y ++ "Q" ++ toString n)
    ∧ quarterlySales fixtureRaw = [("2025Q1", 1000)] := by
  constructor
  · intro raw p hp
    unfold quarterlySales at hp
    obtain ⟨q, hq, rfl⟩ := List.mem_map.1 hp
    exact ⟨q.1 / 4, q.1 % 4 + 1, by omega, by omega, rfl⟩
  · simp [quarterlySales, resample, cleanRows, fixtureRaw, sumAmounts,
      quarterIndex, List.min?, List.max?, List.range', quarterLabel, pad4]
    decide

/-- C7 counterexample: the quarterly bucket of the fixture is labeled
`2025Q1`, not `2025 Q1` as the claim states. -/
theorem salesC7_cex :
    ¬ quarterlySales fixtureRaw = [("2025 Q1", (1000 : ℚ))] := by
  intro h
  have h1 : (quarterlySales fixtureRaw).map Prod.fst = ["2025 Q1"] := by
    rw [h]
    rfl
  have h2 : (quarterlySales fixtureRaw).map Prod.fst = ["2025Q1"] := by
    simp [quarterlySales, resample, cleanRows, fixtureRaw, sumAmounts,
      quarterIndex, List.min?, List.max?, List.range', quarterLabel, pad4]
    decide
  rw [h2] at h1
  exact absurd h1 (by decide)

/-- C7 witness: the label-shape clause at the fixture bucket. -/
theorem salesC7_witness :
    ∃ y n, 1 ≤ n ∧ n ≤ 4
      ∧ (("2025Q1", (1000 : ℚ)) : String × ℚ).1 = pad4 y ++ "Q" ++ toString n :=
  salesC7.1 fixtureRaw ("2025Q1", 1000)
    (by rw [salesC7.2]; exact List.mem_singleton_self _)

/-- C8: monthly bucket labels have the `strftime` form `YYYY-MM`; for the
one-row fixture dated 2025-01-15 with amount 1000 the monthly aggregate
is exactly one bucket labeled `2025-01` with value 1000. -/
theorem salesC8 :
    (∀ (raw : List RawRow), ∀ p ∈ monthlySales raw,
      ∃ y m, 1 ≤ m ∧ m ≤ 12 ∧ p.1 = pad4 y ++ "-" ++ pad2 m)
    ∧ monthlySales fixtureRaw = [("2025-01", 1000)] := by
  constructor
  · intro raw p hp
    unfold monthlySales at hp
    obtain ⟨q, hq, rfl⟩ := List.mem_map.1 hp
    exact ⟨q.1 / 12, q.1 % 12 + 1, by omega, by omega, rfl⟩
  · simp [monthlySales, resample, cleanRows, fixtureRaw, sumAmounts,
      monthIndex, List.min?, List.max?, List.range', monthLabel, pad4, pad2]
    decide

/-- C8 witness: the label-shape clause at the fixture bucket. -/
theorem salesC8_witness :
    ∃ y m, 1 ≤ m ∧ m ≤ 12
      ∧ (("2025-01", (1000 : ℚ)) : String × ℚ).1 = pad4 y ++ "-" ++ pad2 m :=
  salesC8.1 fixtureRaw ("2025-01", 1000)
    (by rw [salesC8.2]; exact List.mem_singleton_self _)

/-- C9: the category aggregate is sorted descending by summed amount, the
bar chart presents the categories in that order, and on the fixture with
A = 600 and B = 400 the bar chart ranks A before B while the pie chart
reports shares 60.0% and 40.0%. -/
theorem salesC9 :
    (∀ raw : List RawRow, List.Sorted byDesc (categorySales raw))
    ∧ categorySales fixtureC9 = [("A", 600), ("B", 400)]
    ∧ barCategories fixtureC9 = ["A", "B"]
    ∧ pieLabels fixtureC9 = ["60.0%", "40.0%"] := by
  refine ⟨?_, ?_, ?_, ?_⟩
  · intro raw
    exact List.sorted_insertionSort byDesc _
  · simp [categorySales, categoryPairs, cleanRows, fixtureC9, sumAmounts,
      List.insertionSort, List.orderedInsert, byDesc]
    norm_num
  · simp [barCategories, categorySales, categoryPairs, cleanRows, fixtureC9,
      sumAmounts, List.insertionSort, List.orderedInsert, byDesc]
    norm_num
  · simp [pieLabels, categoryShare, categorySales, categoryPairs, cleanRows,
      fixtureC9, sumAmounts, List.insertionSort, List.orderedInsert, byDesc,
      fmtPct]
    norm_num
    decide

/-- C10: every aggregate zero-fills its interior: any day number lying
between two realized days has exactly one daily bucket, whose value is
the (possibly empty, hence 0) sum over that day; all daily buckets lie
between realized days; and any month or quarter lying between two
realized ones has a bucket (value 0 when no transaction falls in it). -/
theorem salesC10 :
    (∀ (raw : List RawRow) (n : Nat),
      (∃ r ∈ cleanRows raw, toDayNumber r.date ≤ n) →
      (∃ r ∈ cleanRows raw, n ≤ toDayNumber r.date) →
      ((dailySales raw).map Prod.fst).count n = 1
      ∧ (n, sumAmounts ((cleanRows raw).filter
          (fun r => toDayNumber r.date = n))) ∈ dailySales raw)
    ∧ (∀ (raw : List RawRow), ∀ p ∈ dailySales raw,
      (∃ r ∈ cleanRows raw, toDayNumber r.date ≤ p.1)
      ∧ (∃ r ∈ cleanRows raw, p.1 ≤ toDayNumber r.date))
    ∧ (∀ (raw : List RawRow) (n : Nat),
      (∃ r ∈ cleanRows raw, monthIndex r.date ≤ n) →
      (∃ r ∈ cleanRows raw, n ≤ monthIndex r.date) →
      (monthLabel n, sumAmounts ((cleanRows raw).filter
          (fun r => monthIndex r.date = n))) ∈ monthlySales raw)
    ∧ (∀ (raw : List RawRow) (n : Nat),
      (∃ r ∈ cleanRows raw, quarterIndex r.date ≤ n) →
      (∃ r ∈ cleanRows raw, n ≤ quarterIndex r.date) →
      (quarterLabel n, sumAmounts ((cleanRows raw).filter
          (fun r => quarterIndex r.date = n))) ∈ quarterlySales raw) := by
  refine ⟨?_, ?_, ?_, ?_⟩
  · intro raw n h₁ h₂
    exact resample_mem (fun r => toDayNumber r.date) (cleanRows raw) n h₁ h₂
  · intro raw p hp
    exact resample_bounded (fun r => toDayNumber r.date) (cleanRows raw) p hp
  · intro raw n h₁ h₂
    unfold monthlySales
    exact List.mem_map.2
      ⟨_, (resample_mem (fun r => monthIndex r.date) (cleanRows raw) n h₁ h₂).2,
        rfl⟩
  · intro raw n h₁ h₂
    unfold quarterlySales
    exact List.mem_map.2
      ⟨_, (resample_mem (fun r => quarterIndex r.date) (cleanRows raw) n h₁ h₂).2,
        rfl⟩

/-- C10 witness: gap day 2025-01-02 (serial 739558) between rows on
2025-01-01 and 2025-01-03 has exactly one daily bucket; the empty month
2025-02 (index 24301) and the empty quarter 2025 Q2 (index 8101) between
realized ones still get buckets. -/
theorem salesC10_witness :
    (((dailySales gapRaw).map Prod.fst).count 739558 = 1
      ∧ (739558, sumAmounts ((cleanRows gapRaw).filter
          (fun r => toDayNumber r.date = 739558))) ∈ dailySales gapRaw)
    ∧ (monthLabel 24301, sumAmounts ((cleanRows monthGapRaw).filter
        (fun r => monthIndex r.date = 24301))) ∈ monthlySales monthGapRaw
    ∧ (quarterLabel 8101, sumAmounts ((cleanRows quarterGapRaw).filter
        (fun r => quarterIndex r.date = 8101))) ∈ quarterlySales quarterGapRaw :=
  ⟨salesC10.1 gapRaw 739558 (by decide) (by decide),
   salesC10.2.2.1 monthGapRaw 24301 (by decide) (by decide),
   salesC10.2.2.2 quarterGapRaw 8101 (by decide) (by decide)⟩

end SalesAnalysis
